import Mathlib

/-!
Shallow embedding of the TETO Coffee backend (src/main.py, src/schemas.py).

The document database is modelled as typed per-collection lists of documents.
Each stored document carries a store-generated identifier; BSON ObjectId values
are 12-byte quantities, modelled here as natural numbers, rendered to API
consumers as their 24-character lowercase hexadecimal encoding (`oidStr`).
Fresh identifier generation by the store is modelled by a counter in the
database state: every insert uses the current counter value as the new
identifier and bumps the counter.

Timestamps (datetime.utcnow) are modelled as abstract instants (Nat) passed to
the handlers that read the clock.  Floating-point prices are modelled as `Int`
values: no handler computes with them, they are only stored and echoed.
The SHA-256 hex digest from hashlib is an external dependency and appears as an
opaque function parameter `sha` of the auth handlers.  Pydantic validation
happens at the framework boundary, so each handler receives an already
validated record of the corresponding schema type.
-/

namespace TetoCoffee

/-- HTTPException raised by a handler: status code and detail string. -/
structure HTTPError where
  status : Nat
  detail : String
deriving DecidableEq

/-- A stored document: the store-generated identifier paired with the entity fields. -/
structure Doc (α : Type) where
  oid : Nat
  val : α
deriving DecidableEq

/-- Lowercase hexadecimal digit character for a value below 16. -/
def hexDigitChar (n : Nat) : Char :=
  if n < 10 then Char.ofNat (48 + n) else Char.ofNat (87 + n)

/-- Big-endian hexadecimal digit list of a natural number, fuel-indexed so that
the recursion is structural (the fuel argument bounds the digit count). -/
def hexCharsAux : Nat → Nat → List Char
  | 0, _ => []
  | fuel + 1, n => if n = 0 then [] else hexCharsAux fuel (n / 16) ++ [hexDigitChar (n % 16)]

/-- Big-endian hexadecimal digit list of a natural number (empty for 0). -/
def hexChars (n : Nat) : List Char :=
  hexCharsAux n n

/-- str(ObjectId): the 24-character lowercase hexadecimal rendering of a stored
identifier, zero-padded on the left. -/
def oidStr (n : Nat) : String :=
  let ds := hexChars n
  String.mk (List.replicate (24 - ds.length) '0' ++ ds)

/-- Whether a character is a hexadecimal digit (either case), as accepted by
the bson ObjectId constructor. -/
def isHexChar (c : Char) : Bool :=
  c.isDigit || ('a' ≤ c && c ≤ 'f') || ('A' ≤ c && c ≤ 'F')

/-- Whether a string is a well-formed ObjectId encoding: exactly 24 hexadecimal
characters.  This is the validity rule the bson ObjectId constructor applies to
a string argument. -/
def isValidOidString (s : String) : Bool :=
  s.length == 24 && s.data.all isHexChar

/-- Numeric value of a hexadecimal digit character. -/
def hexVal (c : Char) : Nat :=
  if c.isDigit then c.toNat - 48
  else if 'a' ≤ c then c.toNat - 87
  else c.toNat - 55

/-- The identifier denoted by a well-formed 24-character hexadecimal string.
Uppercase and lowercase renderings of the same bytes denote the same
identifier, as with bson ObjectId equality. -/
def hexToNat (s : String) : Nat :=
  s.data.foldl (fun a c => a * 16 + hexVal c) 0

/-- Translation of to_object_id (src/main.py): parse the string as an ObjectId,
turning any parse failure into a local HTTP 400 error. -/
def to_object_id (s : String) : Except HTTPError Nat :=
  if isValidOidString s then Except.ok (hexToNat s)
  else Except.error ⟨400, "Invalid ID format"⟩

/- Entity records, translated from src/schemas.py.  EmailStr and HttpUrl
fields are strings whose format validation happened at the boundary. -/

/-- User schema (src/schemas.py).  Stored user documents are read back with
dict.get, so the fields the login handler reads are Options here; email is the
lookup key. -/
structure UserDoc where
  name : Option String
  email : String
  password_hash : Option String
  loyalty_points : Option Int
deriving DecidableEq

/-- MenuItem schema (src/schemas.py). -/
structure MenuItem where
  title : String
  description : Option String
  price : Int
  category : String
  image_url : Option String
  is_active : Bool
deriving DecidableEq

/-- Reservation schema (src/schemas.py). -/
structure Reservation where
  name : String
  email : String
  date : String
  time : String
  guests : Int
  special_requests : Option String
  member_email : Option String
  status : String
deriving DecidableEq

/-- Event schema (src/schemas.py). -/
structure Event where
  title : String
  description : Option String
  date : String
  time : String
  image_url : Option String
  capacity : Option Int
  price : Int
deriving DecidableEq

/-- EventRegistration schema (src/schemas.py). -/
structure EventRegistration where
  event_id : String
  name : String
  email : String
  member_email : Option String
  tier : String
deriving DecidableEq

/-- BlogPost schema (src/schemas.py); published_at is an abstract instant. -/
structure BlogPost where
  title : String
  content : String
  image_url : Option String
  author : Option String
  tags : List String
  published_at : Option Nat
deriving DecidableEq

/-- GalleryImage schema (src/schemas.py). -/
structure GalleryImage where
  title : Option String
  image_url : String
  description : Option String
deriving DecidableEq

/-- NewsletterSubscriber schema (src/schemas.py). -/
structure NewsletterSubscriber where
  email : String
  name : Option String
  source : Option String
deriving DecidableEq

/-- ContactMessage schema (src/schemas.py). -/
structure ContactMessage where
  name : String
  email : String
  message : String
  topic : Option String
deriving DecidableEq

/-- The raw, unvalidated analytics record built by the track handler. -/
structure AnalyticsEvent where
  event_name : String
  path : Option String
  metadata : Option String
  ts : Nat
deriving DecidableEq

/-- The document database state: one list of documents per collection
(collection name = lowercase entity name), plus the fresh-identifier counter
modelling store-side ObjectId generation. -/
structure DBState where
  menuitem : List (Doc MenuItem)
  reservation : List (Doc Reservation)
  event : List (Doc Event)
  eventregistration : List (Doc EventRegistration)
  blogpost : List (Doc BlogPost)
  galleryimage : List (Doc GalleryImage)
  newslettersubscriber : List (Doc NewsletterSubscriber)
  contactmessage : List (Doc ContactMessage)
  user : List (Doc UserDoc)
  analytics_event : List (Doc AnalyticsEvent)
  counter : Nat
deriving DecidableEq

/-- pymongo collection.insert_one: append a new document with a
store-generated identifier; the result is the new collection contents and the
inserted identifier. -/
def insert_one (docs : List (Doc α)) (counter : Nat) (a : α) : List (Doc α) × Nat :=
  (docs ++ [⟨counter, a⟩], counter)

/-- pymongo collection.update_one with an identifier-equality filter and a
$set of every model field: replace the fields of the first document whose
identifier matches, leaving the identifier and all other documents unchanged. -/
def update_one : List (Doc α) → Nat → α → List (Doc α)
  | [], _, _ => []
  | d :: ds, oid, a => if d.oid == oid then ⟨d.oid, a⟩ :: ds else d :: update_one ds oid a

/-- Modelled from the spec: create_document(collection_name, record) from the
repository database module, which is not included under src/.  Per the spec it
serializes a validated record, inserts it as one new document into the named
collection, and returns the newly generated identifier as a string.  The
result is the new collection contents, the new counter, and the identifier
string. -/
def create_document (docs : List (Doc α)) (counter : Nat) (a : α) :
    List (Doc α) × Nat × String :=
  (docs ++ [⟨counter, a⟩], counter + 1, oidStr counter)

/-- Modelled from the spec: get_documents(collection_name, filter) from the
repository database module, which is not included under src/.  Per the spec it
returns all documents matching an equality-style filter (empty filter matches
all), each still carrying its raw identifier, with no pagination, sorting, or
limit.  The filter argument is the predicate on documents that the equality
mapping denotes (the constant true predicate for the empty mapping). -/
def get_documents (docs : List (Doc α)) (filt : Doc α → Bool) : List (Doc α) :=
  docs.filter filt

/-- A listed document as shaped by the list handlers: the raw identifier is
popped and re-rendered as the string field id. -/
structure Listed (α : Type) where
  id : String
  val : α
deriving DecidableEq

/-- The common response reshaping of the list handlers: the raw identifier is
removed and rendered as a string id field. -/
def renderId (d : Doc α) : Listed α :=
  ⟨oidStr d.oid, d.val⟩

/-- Translation of list_menu (src/main.py): fetch MenuItem documents with
is_active equal to true and pop the identifier field from each. -/
def list_menu (st : DBState) : List MenuItem :=
  (get_documents st.menuitem (fun d => d.val.is_active == true)).map (fun d => d.val)

/-- Translation of create_menu_item (src/main.py). -/
def create_menu_item (st : DBState) (item : MenuItem) : DBState × String :=
  let r := create_document st.menuitem st.counter item
  ({ st with menuitem := r.1, counter := r.2.1 }, r.2.2)

/-- Response of create_reservation: new id and the literal status. -/
structure ReservationCreated where
  id : String
  status : String
deriving DecidableEq

/-- Translation of create_reservation (src/main.py). -/
def create_reservation (st : DBState) (res : Reservation) : DBState × ReservationCreated :=
  let r := create_document st.reservation st.counter res
  ({ st with reservation := r.1, counter := r.2.1 }, ⟨r.2.2, "confirmed"⟩)

/-- Translation of list_reservations (src/main.py): with an email query
parameter, filter by exact email equality; otherwise return all; in both cases
rename the identifier to a string id field. -/
def list_reservations (st : DBState) (email : Option String) : List (Listed Reservation) :=
  let filt : Doc Reservation → Bool :=
    match email with
    | some e => fun d => d.val.email == e
    | none => fun _ => true
  (get_documents st.reservation filt).map renderId

/-- Translation of list_events (src/main.py). -/
def list_events (st : DBState) : List (Listed Event) :=
  (get_documents st.event (fun _ => true)).map renderId

/-- Translation of create_event (src/main.py). -/
def create_event (st : DBState) (ev : Event) : DBState × String :=
  let r := create_document st.event st.counter ev
  ({ st with event := r.1, counter := r.2.1 }, r.2.2)

/-- Success response of register_event: the route returns status 201 with the
new identifier rendered as a string. -/
structure Created where
  status : Nat
  id : String
deriving DecidableEq

/-- Translation of register_event (src/main.py): parse the path identifier
(HTTP 400 on malformed input, before any lookup), look the Event up by
identifier (HTTP 404 when absent), then insert the registration payload with
its event_id field overwritten by the path value. -/
def register_event (st : DBState) (event_id : String) (reg : EventRegistration) :
    Except HTTPError Created × DBState :=
  match to_object_id event_id with
  | Except.error e => (Except.error e, st)
  | Except.ok oid =>
    match st.event.find? (fun d => d.oid == oid) with
    | none => (Except.error ⟨404, "Event not found"⟩, st)
    | some _ =>
      let payload := { reg with event_id := event_id }
      let r := insert_one st.eventregistration st.counter payload
      (Except.ok ⟨201, oidStr r.2⟩,
       { st with eventregistration := r.1, counter := st.counter + 1 })

/-- Translation of list_posts (src/main.py). -/
def list_posts (st : DBState) : List (Listed BlogPost) :=
  (get_documents st.blogpost (fun _ => true)).map renderId

/-- Translation of create_post (src/main.py): when published_at is absent it
is set to the current UTC time before the record is stored. -/
def create_post (st : DBState) (now : Nat) (post : BlogPost) : DBState × String :=
  let post := if post.published_at = none then { post with published_at := some now } else post
  let r := create_document st.blogpost st.counter post
  ({ st with blogpost := r.1, counter := r.2.1 }, r.2.2)

/-- Translation of list_gallery (src/main.py). -/
def list_gallery (st : DBState) : List (Listed GalleryImage) :=
  (get_documents st.galleryimage (fun _ => true)).map renderId

/-- Translation of add_gallery_image (src/main.py). -/
def add_gallery_image (st : DBState) (img : GalleryImage) : DBState × String :=
  let r := create_document st.galleryimage st.counter img
  ({ st with galleryimage := r.1, counter := r.2.1 }, r.2.2)

/-- Response of the subscribe handler: id string and the updated flag. -/
structure SubscribeResponse where
  id : String
  updated : Bool
deriving DecidableEq

/-- Translation of subscribe (src/main.py): find an existing subscriber by
exact email; when found, update that document in place with a $set of all
fields and answer updated true; otherwise create a new document and answer
updated false. -/
def subscribe (st : DBState) (sub : NewsletterSubscriber) : DBState × SubscribeResponse :=
  match st.newslettersubscriber.find? (fun d => d.val.email == sub.email) with
  | some existing =>
      ({ st with newslettersubscriber := update_one st.newslettersubscriber existing.oid sub },
       ⟨oidStr existing.oid, true⟩)
  | none =>
      let r := create_document st.newslettersubscriber st.counter sub
      ({ st with newslettersubscriber := r.1, counter := r.2.1 }, ⟨r.2.2, false⟩)

/-- Iterated subscribe calls, keeping only the evolving database state. -/
def subscribeAll (st : DBState) (cs : List NewsletterSubscriber) : DBState :=
  cs.foldl (fun s c => (subscribe s c).1) st

/-- The listing-equivalent lookup by email: get_documents of the subscriber
collection with an email equality filter. -/
def lookup_by_email (st : DBState) (e : String) : List (Doc NewsletterSubscriber) :=
  get_documents st.newslettersubscriber (fun d => d.val.email == e)

/-- The latest element of the call sequence carrying the given email, if any. -/
def lastCallWith (e : String) : List NewsletterSubscriber → Option NewsletterSubscriber
  | [] => none
  | c :: cs =>
    match lastCallWith e cs with
    | some s => some s
    | none => if c.email == e then some c else none

/-- Store-level well-formedness of the subscriber collection: identifiers are
pairwise distinct (the store guarantees unique document identifiers), at most
one subscriber per email (the upsert invariant), and every stored identifier
predates the fresh-identifier counter (newly generated identifiers are fresh). -/
def SubsOk (st : DBState) : Prop :=
  (st.newslettersubscriber.map (fun d => d.oid)).Nodup ∧
  List.Pairwise (fun a b => a.val.email ≠ b.val.email) st.newslettersubscriber ∧
  ∀ d ∈ st.newslettersubscriber, d.oid < st.counter

/-- Translation of hash_password (src/main.py): the SHA-256 hex digest of the
password, with the digest function itself an opaque external dependency. -/
def hash_password (sha : String → String) (password : String) : String :=
  sha password

/-- Success response of login_user. -/
structure LoginResponse where
  token : String
  name : Option String
  email : String
  loyalty_points : Int
deriving DecidableEq

/-- Translation of login_user (src/main.py): find the user by email; unless a
user is found whose stored password_hash equals the digest of the supplied
password, answer HTTP 401; otherwise answer the token (digest of the email, a
colon, and the stored identifier rendering), the stored name, the email, and
the stored loyalty_points defaulting to 0. -/
def login_user (sha : String → String) (st : DBState) (email password : String) :
    Except HTTPError LoginResponse :=
  match st.user.find? (fun d => d.val.email == email) with
  | none => Except.error ⟨401, "Invalid credentials"⟩
  | some u =>
    if u.val.password_hash == some (hash_password sha password) then
      Except.ok ⟨sha (email ++ ":" ++ oidStr u.oid), u.val.name, email,
                 u.val.loyalty_points.getD 0⟩
    else Except.error ⟨401, "Invalid credentials"⟩

/-- Response of the track handler. -/
structure TrackResponse where
  ok : Bool
deriving DecidableEq

/-- Translation of track (src/main.py): insert the raw payload with the
caller-supplied values verbatim and the current UTC instant, and answer ok. -/
def track (st : DBState) (now : Nat) (event_name : String)
    (path : Option String) (metadata : Option String) : DBState × TrackResponse :=
  let payload : AnalyticsEvent := ⟨event_name, path, metadata, now⟩
  let r := insert_one st.analytics_event st.counter payload
  ({ st with analytics_event := r.1, counter := st.counter + 1 }, ⟨true⟩)

/-- The database handle probed by the test endpoint: the name attribute when
present, and the outcome of list_collection_names, which either returns the
collection names or raises (carrying the exception text). -/
structure DBHandle where
  name : Option String
  list_collection_names : Except String (List String)

/-- The status object answered by the test endpoint. -/
structure TestResponse where
  backend : String
  database : String
  database_url : Option String
  database_name : Option String
  connection_status : String
  collections : List String
deriving DecidableEq

/-- Translation of test_database (src/main.py): a total function of the
database handle (None when no connection exists) and the DATABASE_URL
environment value; every probing failure is caught and rendered as a truncated
string in the body. -/
def test_database (db : Option DBHandle) (env_database_url : Option String) : TestResponse :=
  match db with
  | none =>
      { backend := "✅ Running", database := "⚠️  Available but not initialized",
        database_url := none, database_name := none,
        connection_status := "Not Connected", collections := [] }
  | some d =>
      let url_status := if env_database_url.getD "" = "" then "❌ Not Set" else "✅ Set"
      match d.list_collection_names with
      | Except.ok cols =>
          { backend := "✅ Running", database := "✅ Connected & Working",
            database_url := some url_status,
            database_name := some (d.name.getD "✅ Connected"),
            connection_status := "Connected", collections := cols.take 10 }
      | Except.error e =>
          { backend := "✅ Running",
            database := "⚠️  Connected but Error: " ++ e.take 50,
            database_url := some url_status,
            database_name := some (d.name.getD "✅ Connected"),
            connection_status := "Connected", collections := [] }

/-- Numeric value of a decimal digit character. -/
def digitVal (c : Char) : Nat :=
  c.toNat - 48

/-- Digit-run continuation of Python int parsing: decimal digits with single
underscores allowed only between digits. -/
def parseDigitsCore : Nat → List Char → Option Nat
  | acc, [] => some acc
  | acc, c :: cs =>
    if c.isDigit then parseDigitsCore (10 * acc + digitVal c) cs
    else if c = '_' then
      match cs with
      | [] => none
      | c2 :: cs2 => if c2.isDigit then parseDigitsCore (10 * acc + digitVal c2) cs2 else none
    else none

/-- A nonempty decimal digit run, as accepted after the optional sign by
Python int parsing. -/
def parseUnsignedDigits : List Char → Option Nat
  | [] => none
  | c :: cs => if c.isDigit then parseDigitsCore (digitVal c) cs else none

/-- Python int applied to a string: strip surrounding whitespace, accept an
optional sign followed by decimal digits (single underscores permitted between
digits), and raise ValueError otherwise. -/
def pythonIntOfString (s : String) : Except String Int :=
  let cs := ((s.data.dropWhile Char.isWhitespace).reverse.dropWhile Char.isWhitespace).reverse
  let res : Option Int :=
    match cs with
    | '+' :: rest => (parseUnsignedDigits rest).map (fun n => (n : Int))
    | '-' :: rest => (parseUnsignedDigits rest).map (fun n => -(n : Int))
    | _ => (parseUnsignedDigits cs).map (fun n => (n : Int))
  match res with
  | some n => Except.ok n
  | none => Except.error "invalid literal for int() with base 10"

/-- The listener binding produced by the entry point. -/
structure ServerBinding where
  host : String
  port : Int
deriving DecidableEq

/-- Translation of the module entry point (src/main.py): the port is the
result of Python int applied to the PORT environment value, 8000 when PORT is
unset (os.getenv yields the integer default 8000 and int of 8000 is 8000);
uvicorn binds the listener to host 0.0.0.0 on that port.  An unparseable PORT
value makes int raise, so startup fails instead of binding. -/
def main_entry (env_port : Option String) : Except String ServerBinding :=
  match env_port with
  | none => Except.ok ⟨"0.0.0.0", 8000⟩
  | some s =>
    match pythonIntOfString s with
    | Except.ok n => Except.ok ⟨"0.0.0.0", n⟩
    | Except.error e => Except.error e

/-- Boolean success test on a handler outcome. -/
def exceptIsOk : Except ε α → Bool
  | Except.ok _ => true
  | Except.error _ => false

/-- An empty database state, used by the concrete witness instances. -/
def emptyDB : DBState :=
  ⟨[], [], [], [], [], [], [], [], [], [], 0⟩

/-- A concrete event payload for witness instances. -/
def demoEvent : Event :=
  ⟨"Latte Art Night", none, "2026-11-01", "18:00", none, some 50, 0⟩

/-- A database state holding one event with identifier 7, for witnesses. -/
def demoEventDB : DBState :=
  { emptyDB with event := [⟨7, demoEvent⟩], counter := 8 }

/-- A concrete registration payload for witness instances. -/
def demoReg : EventRegistration :=
  ⟨"ignored", "Ada", "ada@example.com", none, "guest"⟩

/-- The 24-character hexadecimal rendering of identifier 7. -/
def demoEid : String :=
  "000000000000000000000007"

/-- A concrete subscriber payload for witness instances. -/
def demoSub1 : NewsletterSubscriber :=
  ⟨"ada@example.com", none, some "website"⟩

/-- A second subscriber payload with the same email and different fields. -/
def demoSub2 : NewsletterSubscriber :=
  ⟨"ada@example.com", some "Ada", some "promo"⟩

/-- A concrete stored user document for the login witnesses. -/
def demoUser : UserDoc :=
  ⟨some "Ada", "ada@example.com", some "pw", none⟩

/-- A database state holding one user with identifier 3, for witnesses. -/
def demoUserDB : DBState :=
  { emptyDB with user := [⟨3, demoUser⟩], counter := 4 }

/-- A concrete database handle whose collection listing raises, for the test
endpoint witnesses. -/
def demoHandleErr : DBHandle :=
  ⟨some "teto", Except.error "boom"⟩

/-- A concrete database handle whose collection listing succeeds with twelve
names, for the test endpoint witnesses. -/
def demoHandleOk : DBHandle :=
  ⟨some "teto", Except.ok ["c1", "c2", "c3", "c4", "c5", "c6", "c7", "c8", "c9", "c10", "c11", "c12"]⟩

/-- A concrete blog post without a publication instant. -/
def demoPost : BlogPost :=
  ⟨"Hello", "First post", none, some "TETO Team", [], none⟩

/-- A concrete blog post with an explicit publication instant. -/
def demoPostAt : BlogPost :=
  ⟨"Hello", "First post", none, some "TETO Team", [], some 1111⟩

/-- The subscriber state reached from the empty store by one subscribe call
with demoSub1, for the upsert witnesses. -/
def demoSubDB : DBState :=
  { emptyDB with newslettersubscriber := [⟨0, demoSub1⟩], counter := 1 }

/-- A concrete menu item state: one active and one inactive item. -/
def demoMenuDB : DBState :=
  { emptyDB with
      menuitem :=
        [⟨1, ⟨"Espresso", none, 3, "coffee", none, true⟩⟩,
         ⟨2, ⟨"Old Special", none, 5, "special", none, false⟩⟩],
      counter := 3 }

/-! Theorems. -/

/-- C1: for POST /api/events/(event_id)/register, a malformed event_id yields
HTTP 400 with detail Invalid ID format and an untouched state, uniformly in
the database state (so before any lookup); a well-formed event_id with no
matching Event document yields HTTP 404 with detail Event not found and an
untouched state (nothing inserted); when the Event exists and the payload is a
valid EventRegistration, exactly one registration document is appended and the
handler answers HTTP 201 carrying the new identifier rendered as a string. -/
theorem C1_register_event_error_handling :
    (∀ st eid reg, isValidOidString eid = false →
        register_event st eid reg = (Except.error ⟨400, "Invalid ID format"⟩, st)) ∧
    (∀ st eid reg, isValidOidString eid = true →
        st.event.find? (fun d => d.oid == hexToNat eid) = none →
        register_event st eid reg = (Except.error ⟨404, "Event not found"⟩, st)) ∧
    (∀ st eid reg ev, isValidOidString eid = true →
        st.event.find? (fun d => d.oid == hexToNat eid) = some ev →
        register_event st eid reg =
          (Except.ok ⟨201, oidStr st.counter⟩,
           { st with
               eventregistration :=
                 st.eventregistration ++ [⟨st.counter, { reg with event_id := eid }⟩],
               counter := st.counter + 1 })) := by
  refine ⟨?_, ?_, ?_⟩
  · intro st eid reg h
    simp [register_event, to_object_id, h]
  · intro st eid reg h1 h2
    simp [register_event, to_object_id, h1, h2]
  · intro st eid reg ev h1 h2
    simp [register_event, to_object_id, insert_one, h1, h2]

/-- Witness for C1 at concrete inputs: a malformed id, a well-formed id over
an empty store, and a registration against an existing event. -/
theorem C1_register_event_error_handling_witness :
    register_event emptyDB "xyz" demoReg = (Except.error ⟨400, "Invalid ID format"⟩, emptyDB) ∧
    register_event emptyDB demoEid demoReg = (Except.error ⟨404, "Event not found"⟩, emptyDB) ∧
    register_event demoEventDB demoEid demoReg =
      (Except.ok ⟨201, oidStr demoEventDB.counter⟩,
       { demoEventDB with
           eventregistration :=
             demoEventDB.eventregistration ++
               [⟨demoEventDB.counter, { demoReg with event_id := demoEid }⟩],
           counter := demoEventDB.counter + 1 }) :=
  ⟨C1_register_event_error_handling.1 emptyDB "xyz" demoReg (by decide),
   C1_register_event_error_handling.2.1 emptyDB demoEid demoReg (by decide) (by decide),
   C1_register_event_error_handling.2.2 demoEventDB demoEid demoReg ⟨7, demoEvent⟩
     (by decide) (by decide)⟩

/-- C10: the registration stored by register_event always carries the
path-supplied event_id, so the handler result does not depend on the event_id
field of the request body, and on success the single stored document has its
event_id field equal to the path value. -/
theorem C10_register_event_path_id_wins :
    (∀ st eid reg x,
        register_event st eid { reg with event_id := x } = register_event st eid reg) ∧
    (∀ st eid reg, exceptIsOk (register_event st eid reg).1 = true →
        (register_event st eid reg).2.eventregistration =
          st.eventregistration ++ [⟨st.counter, { reg with event_id := eid }⟩]) := by
  constructor
  · intro st eid reg x
    rfl
  · intro st eid reg h
    cases hto : to_object_id eid with
    | error e => simp [register_event, hto, exceptIsOk] at h
    | ok oid =>
      cases hf : st.event.find? (fun d => d.oid == oid) with
      | none => simp [register_event, hto, hf, exceptIsOk] at h
      | some ev => simp [register_event, hto, hf, insert_one]

/-- Witness for C10: the handler gives the same result for two request bodies
differing only in event_id, and the stored document carries the path value. -/
theorem C10_register_event_path_id_wins_witness :
    register_event demoEventDB demoEid { demoReg with event_id := "something-else" } =
      register_event demoEventDB demoEid demoReg ∧
    (register_event demoEventDB demoEid demoReg).2.eventregistration =
      demoEventDB.eventregistration ++
        [⟨demoEventDB.counter, { demoReg with event_id := demoEid }⟩] :=
  ⟨C10_register_event_path_id_wins.1 demoEventDB demoEid demoReg "something-else",
   C10_register_event_path_id_wins.2 demoEventDB demoEid demoReg (by decide)⟩

/-- C8: POST /api/analytics/track stores one raw document holding the
caller-supplied event_name, path, and metadata verbatim (metadata being an
optional string request parameter, quantified here over every value) together
with the current UTC instant, and answers ok. -/
theorem C8_track_raw_insert :
    ∀ st now event_name path metadata,
      (track st now event_name path metadata).1.analytics_event =
        st.analytics_event ++ [⟨st.counter, ⟨event_name, path, metadata, now⟩⟩] ∧
      (track st now event_name path metadata).2 = ⟨true⟩ := by
  intro st now en p m
  exact ⟨rfl, rfl⟩

/-- C6: POST /api/blog stores published_at as the current UTC instant exactly
when the payload has no published_at, and stores a supplied published_at
unchanged. -/
theorem C6_blog_published_at_default :
    (∀ st now post, post.published_at = none →
        (create_post st now post).1.blogpost =
          st.blogpost ++ [⟨st.counter, { post with published_at := some now }⟩]) ∧
    (∀ st now post t, post.published_at = some t →
        (create_post st now post).1.blogpost = st.blogpost ++ [⟨st.counter, post⟩]) := by
  constructor
  · intro st now post h
    simp [create_post, create_document, h]
  · intro st now post t h
    simp [create_post, create_document, h]

/-- Witness for C6: a post without an instant receives the clock value 55, a
post carrying instant 1111 is stored unchanged. -/
theorem C6_blog_published_at_default_witness :
    (create_post emptyDB 55 demoPost).1.blogpost =
      emptyDB.blogpost ++ [⟨emptyDB.counter, { demoPost with published_at := some 55 }⟩] ∧
    (create_post emptyDB 55 demoPostAt).1.blogpost =
      emptyDB.blogpost ++ [⟨emptyDB.counter, demoPostAt⟩] :=
  ⟨C6_blog_published_at_default.1 emptyDB 55 demoPost (by decide),
   C6_blog_published_at_default.2 emptyDB 55 demoPostAt 1111 (by decide)⟩

/-- C7: round-trip for every entity with both a create and a list endpoint
(Event, BlogPost, GalleryImage, Reservation): the document created from a
valid payload appears in the subsequent listing with all submitted fields
preserved (for BlogPost, with the published_at default applied on the way in
when absent) and its store identifier removed and rendered as the string field
id, which equals the id string the create endpoint answered. -/
theorem C7_create_list_roundtrip :
    (∀ st ev,
        list_events (create_event st ev).1 = list_events st ++ [⟨oidStr st.counter, ev⟩] ∧
        (create_event st ev).2 = oidStr st.counter) ∧
    (∀ st now post,
        list_posts (create_post st now post).1 =
          list_posts st ++
            [⟨oidStr st.counter,
              { post with published_at := some (post.published_at.getD now) }⟩] ∧
        (create_post st now post).2 = oidStr st.counter) ∧
    (∀ st img,
        list_gallery (add_gallery_image st img).1 =
          list_gallery st ++ [⟨oidStr st.counter, img⟩] ∧
        (add_gallery_image st img).2 = oidStr st.counter) ∧
    (∀ st res,
        list_reservations (create_reservation st res).1 none =
          list_reservations st none ++ [⟨oidStr st.counter, res⟩] ∧
        (create_reservation st res).2.id = oidStr st.counter) := by
  refine ⟨?_, ?_, ?_, ?_⟩
  · intro st ev
    exact ⟨by simp [list_events, create_event, create_document, get_documents, renderId], rfl⟩
  · intro st now post
    constructor
    · cases hp : post.published_at with
      | none =>
        simp [list_posts, create_post, create_document, get_documents, renderId, hp]
      | some t =>
        simp [list_posts, create_post, create_document, get_documents, renderId, hp]
        rw [← hp]
    · rfl
  · intro st img
    exact ⟨by simp [list_gallery, add_gallery_image, create_document, get_documents, renderId],
           rfl⟩
  · intro st res
    exact ⟨by simp [list_reservations, create_reservation, create_document, get_documents,
                    renderId],
           rfl⟩

/-- C5: GET /test is a total function of the database condition: it always
answers a status object, its collections list never exceeds the first 10
names, a missing handle is reported as available but not initialized, a
listable database is reported connected and working with the first 10
collection names, and an exception text e raised while listing is caught and
rendered truncated to 50 characters inside the body. -/
theorem C5_test_endpoint_never_raises :
    (∀ db env, (test_database db env).backend = "✅ Running" ∧
        (test_database db env).collections.length ≤ 10) ∧
    (∀ env, test_database none env =
        ⟨"✅ Running", "⚠️  Available but not initialized", none, none,
         "Not Connected", []⟩) ∧
    (∀ d env cols, d.list_collection_names = Except.ok cols →
        (test_database (some d) env).collections = cols.take 10 ∧
        (test_database (some d) env).database = "✅ Connected & Working") ∧
    (∀ d env e, d.list_collection_names = Except.error e →
        (test_database (some d) env).database = "⚠️  Connected but Error: " ++ e.take 50 ∧
        (test_database (some d) env).collections = []) := by
  refine ⟨?_, ?_, ?_, ?_⟩
  · intro db env
    cases db with
    | none => exact ⟨rfl, by simp [test_database]⟩
    | some d =>
      cases hc : d.list_collection_names with
      | ok cols =>
        refine ⟨by simp [test_database, hc], ?_⟩
        simp [test_database, hc, List.length_take]
      | error e => exact ⟨by simp [test_database, hc], by simp [test_database, hc]⟩
  · intro env
    rfl
  · intro d env cols hc
    exact ⟨by simp [test_database, hc], by simp [test_database, hc]⟩
  · intro d env e hc
    exact ⟨by simp [test_database, hc], by simp [test_database, hc]⟩

/-- Witness for C5 at concrete handles: a raising handle renders the
truncated exception text, and a handle listing twelve collections answers the
first ten. -/
theorem C5_test_endpoint_never_raises_witness :
    (test_database (some demoHandleOk) (some "mongodb://x")).collections =
      ["c1", "c2", "c3", "c4", "c5", "c6", "c7", "c8", "c9", "c10", "c11", "c12"].take 10 ∧
    (test_database (some demoHandleErr) none).database =
      "⚠️  Connected but Error: " ++ String.take "boom" 50 :=
  ⟨(C5_test_endpoint_never_raises.2.2.1 demoHandleOk (some "mongodb://x")
      ["c1", "c2", "c3", "c4", "c5", "c6", "c7", "c8", "c9", "c10", "c11", "c12"] rfl).1,
   (C5_test_endpoint_never_raises.2.2.2 demoHandleErr none "boom" rfl).1⟩

/-- C9 counterexample: with PORT set to the unparseable string abc, the entry
point raises a ValueError from int instead of binding port 8000, contradicting
the claim that an unparseable PORT falls back to 8000. -/
theorem C9_port_unparseable_counterexample :
    main_entry (some "abc") = Except.error "invalid literal for int() with base 10" ∧
    main_entry (some "abc") ≠ Except.ok ⟨"0.0.0.0", 8000⟩ := by
  constructor
  · rfl
  · intro h
    rw [show main_entry (some "abc") =
          Except.error "invalid literal for int() with base 10" from rfl] at h
    exact Except.noConfusion h

/-- C9 amended: running the service directly binds the listener to all
interfaces (0.0.0.0); the port is 8000 when PORT is unset, the parsed integer
when PORT parses as a Python int literal, and when PORT is unparseable the int
conversion raises and startup fails instead of defaulting. -/
theorem C9_port_binding_amended :
    main_entry none = Except.ok ⟨"0.0.0.0", 8000⟩ ∧
    (∀ s n, pythonIntOfString s = Except.ok n →
        main_entry (some s) = Except.ok ⟨"0.0.0.0", n⟩) ∧
    (∀ s e, pythonIntOfString s = Except.error e →
        main_entry (some s) = Except.error e) := by
  refine ⟨rfl, ?_, ?_⟩ <;> intro s x h <;> simp [main_entry, h]

/-- Witness for C9 amended: PORT set to 9000 binds port 9000, and PORT set to
abc makes startup fail. -/
theorem C9_port_binding_amended_witness :
    main_entry (some "9000") = Except.ok ⟨"0.0.0.0", 9000⟩ ∧
    main_entry (some "abc") = Except.error "invalid literal for int() with base 10" :=
  ⟨C9_port_binding_amended.2.1 "9000" 9000 rfl,
   C9_port_binding_amended.2.2 "abc" "invalid literal for int() with base 10" rfl⟩

/-- C3: GET /api/menu returns exactly the field parts of the stored MenuItem
documents whose is_active equals true: membership in the result is equivalent
to being the fields of an active stored document, and every returned item has
is_active true, so documents with is_active false are never included.  The
result elements have type MenuItem, which carries no identifier field: the
handler pops the raw identifier from every document. -/
theorem C3_menu_lists_active_without_id :
    (∀ st x, x ∈ list_menu st ↔ ∃ d, d ∈ st.menuitem ∧ d.val.is_active = true ∧ d.val = x) ∧
    (∀ st x, x ∈ list_menu st → x.is_active = true) := by
  have hmem : ∀ st x, x ∈ list_menu st ↔
      ∃ d, d ∈ st.menuitem ∧ d.val.is_active = true ∧ d.val = x := by
    intro st x
    simp [list_menu, get_documents, List.mem_filter, and_assoc]
  refine ⟨hmem, ?_⟩
  intro st x hx
  obtain ⟨d, _, hact, hval⟩ := (hmem st x).mp hx
  rw [← hval]
  exact hact

/-- Witness for C3 at a concrete state with one active and one inactive item:
the active item is listed, the inactive one is not, and the listed item has
is_active true. -/
theorem C3_menu_lists_active_without_id_witness :
    (⟨"Espresso", none, 3, "coffee", none, true⟩ : MenuItem) ∈ list_menu demoMenuDB ∧
    (⟨"Old Special", none, 5, "special", none, false⟩ : MenuItem) ∉ list_menu demoMenuDB ∧
    (⟨"Espresso", none, 3, "coffee", none, true⟩ : MenuItem).is_active = true := by
  refine ⟨?_, ?_, ?_⟩
  · exact (C3_menu_lists_active_without_id.1 demoMenuDB _).mpr
      ⟨⟨1, ⟨"Espresso", none, 3, "coffee", none, true⟩⟩, by decide, rfl, rfl⟩
  · intro hmem
    have := C3_menu_lists_active_without_id.2 demoMenuDB _ hmem
    simp at this
  · exact C3_menu_lists_active_without_id.2 demoMenuDB _
      ((C3_menu_lists_active_without_id.1 demoMenuDB _).mpr
        ⟨⟨1, ⟨"Espresso", none, 3, "coffee", none, true⟩⟩, by decide, rfl, rfl⟩)

/-- C4: POST /api/auth/login answers, for a stored user with the given email
whose stored password_hash equals the digest of the supplied password (in a
state with at most one user per email, as register enforces), the token — the
digest of the email, a colon, and the stored identifier rendering — together
with the stored name, the email, and the stored loyalty_points defaulting to
0 when absent; when no user has the email, and when the digest mismatches, it
answers the one identical error value, HTTP 401 with detail Invalid
credentials, so the two failure causes are observably indistinguishable. -/
theorem C4_login_token_and_indistinguishable_failures :
    (∀ sha st email password u,
        (∀ d1, d1 ∈ st.user → ∀ d2, d2 ∈ st.user → d1.val.email = d2.val.email → d1 = d2) →
        u ∈ st.user → u.val.email = email →
        u.val.password_hash = some (hash_password sha password) →
        login_user sha st email password =
          Except.ok ⟨sha (email ++ ":" ++ oidStr u.oid), u.val.name, email,
                     u.val.loyalty_points.getD 0⟩) ∧
    (∀ sha st email password,
        (∀ d, d ∈ st.user → d.val.email ≠ email) →
        login_user sha st email password = Except.error ⟨401, "Invalid credentials"⟩) ∧
    (∀ sha st email password u,
        st.user.find? (fun d => d.val.email == email) = some u →
        u.val.password_hash ≠ some (hash_password sha password) →
        login_user sha st email password = Except.error ⟨401, "Invalid credentials"⟩) := by
  refine ⟨?_, ?_, ?_⟩
  · intro sha st email password u huniq hu hmail hhash
    cases hf : st.user.find? (fun d => d.val.email == email) with
    | none =>
      rw [List.find?_eq_none] at hf
      exact absurd (by simp [hmail]) (hf u hu)
    | some u2 =>
      have h2 : u2 ∈ st.user := List.mem_of_find?_eq_some hf
      have hp : (u2.val.email == email) = true := by
        have hp0 := List.find?_some hf
        simpa using hp0
      have heq : u2 = u := huniq u2 h2 u hu (by rw [hmail]; exact beq_iff_eq.mp hp)
      subst heq
      simp [login_user, hf, hhash, hash_password]
  · intro sha st email password hnone
    have hf : st.user.find? (fun d => d.val.email == email) = none := by
      rw [List.find?_eq_none]
      intro d hd
      simp [hnone d hd]
    simp [login_user, hf]
  · intro sha st email password u hf hne
    have hb : (u.val.password_hash == some (hash_password sha password)) = false := by
      simpa using hne
    simp [login_user, hf, hb]

/-- Witness for C4 with the identity function standing in for the opaque
digest: correct credentials answer the token with name Ada and 0 loyalty
points; an unknown email and a wrong password answer the same 401 error. -/
theorem C4_login_token_and_indistinguishable_failures_witness :
    login_user (fun s => s) demoUserDB "ada@example.com" "pw" =
      Except.ok ⟨"ada@example.com" ++ ":" ++ oidStr 3, some "Ada", "ada@example.com", 0⟩ ∧
    login_user (fun s => s) demoUserDB "bob@example.com" "pw" =
      Except.error ⟨401, "Invalid credentials"⟩ ∧
    login_user (fun s => s) demoUserDB "ada@example.com" "wrong" =
      Except.error ⟨401, "Invalid credentials"⟩ :=
  ⟨C4_login_token_and_indistinguishable_failures.1 (fun s => s) demoUserDB
     "ada@example.com" "pw" ⟨3, demoUser⟩ (by decide) (by decide) rfl rfl,
   C4_login_token_and_indistinguishable_failures.2.1 (fun s => s) demoUserDB
     "bob@example.com" "pw" (by decide),
   C4_login_token_and_indistinguishable_failures.2.2 (fun s => s) demoUserDB
     "ada@example.com" "wrong" ⟨3, demoUser⟩ (by decide) (by decide)⟩

/-- Decomposition of a successful find?: the list splits at the first element
satisfying the predicate, with every element to the left failing it. -/
theorem find?_decomp {α : Type} {p : α → Bool} {l : List α} {a : α}
    (h : l.find? p = some a) :
    ∃ l1 l2, l = l1 ++ a :: l2 ∧ p a = true ∧ ∀ x ∈ l1, p x = false := by
  induction l with
  | nil => simp at h
  | cons b bs ih =>
    cases hb : p b with
    | true =>
      rw [List.find?_cons_of_pos bs hb] at h
      cases h
      exact ⟨[], bs, rfl, hb, by simp⟩
    | false =>
      rw [List.find?_cons_of_neg bs (by simp [hb])] at h
      obtain ⟨l1, l2, rfl, hpa, hl1⟩ := ih h
      refine ⟨b :: l1, l2, rfl, hpa, ?_⟩
      intro x hx
      rcases List.mem_cons.mp hx with rfl | hx2
      · exact hb
      · exact hl1 x hx2

/-- update_one never changes the sequence of stored identifiers. -/
theorem update_one_map_oid {α : Type} (l : List (Doc α)) (oid : Nat) (a : α) :
    (update_one l oid a).map (fun d => d.oid) = l.map (fun d => d.oid) := by
  induction l with
  | nil => rfl
  | cons b bs ih =>
    cases hb : b.oid == oid with
    | true => simp [update_one, hb]
    | false => simp [update_one, hb, ih]

/-- When no element to the left of the split carries the identifier,
update_one replaces exactly the split element, in place. -/
theorem update_one_split {α : Type} {l1 l2 : List (Doc α)} {d : Doc α} {a : α}
    (h : ∀ x ∈ l1, x.oid ≠ d.oid) :
    update_one (l1 ++ d :: l2) d.oid a = l1 ++ ⟨d.oid, a⟩ :: l2 := by
  induction l1 with
  | nil => simp [update_one]
  | cons b bs ih =>
    have hb : (b.oid == d.oid) = false := by
      simpa using h b (by simp)
    simp [update_one, hb, ih (fun x hx => h x (List.mem_cons_of_mem b hx))]

/-- In a collection with pairwise distinct identifiers, no element to the
left of an occurrence shares its identifier. -/
theorem nodup_split_oid {α : Type} {l1 l2 : List (Doc α)} {d : Doc α}
    (h : ((l1 ++ d :: l2).map (fun x => x.oid)).Nodup) :
    ∀ x ∈ l1, x.oid ≠ d.oid := by
  intro x hx heq
  rw [List.map_append, List.nodup_append] at h
  exact h.2.2 (List.mem_map_of_mem _ hx) (by simp [heq])

/-- Replacing one document by another with the same email preserves pairwise
email distinctness. -/
theorem pairwise_email_replace {l1 l2 : List (Doc NewsletterSubscriber)}
    {a b : Doc NewsletterSubscriber} (hab : a.val.email = b.val.email)
    (h : List.Pairwise (fun x y => x.val.email ≠ y.val.email) (l1 ++ a :: l2)) :
    List.Pairwise (fun x y => x.val.email ≠ y.val.email) (l1 ++ b :: l2) := by
  rw [List.pairwise_append] at h ⊢
  obtain ⟨h1, h2, h3⟩ := h
  rw [List.pairwise_cons] at h2 ⊢
  refine ⟨h1, ⟨?_, h2.2⟩, ?_⟩
  · intro y hy
    rw [← hab]
    exact h2.1 y hy
  · intro x hx y hy
    rcases List.mem_cons.mp hy with rfl | hy2
    · rw [← hab]
      exact h3 x hx a (by simp)
    · exact h3 x hx y (by simp [hy2])

/-- subscribe preserves the well-formedness of the subscriber collection. -/
theorem subscribe_SubsOk {st : DBState} (sub : NewsletterSubscriber) (h : SubsOk st) :
    SubsOk (subscribe st sub).1 := by
  obtain ⟨hnd, hpw, hlt⟩ := h
  cases hf : st.newslettersubscriber.find? (fun d => d.val.email == sub.email) with
  | none =>
    have hall : ∀ d ∈ st.newslettersubscriber, d.val.email ≠ sub.email := by
      rw [List.find?_eq_none] at hf
      intro d hd
      simpa using hf d hd
    simp only [subscribe, hf, create_document]
    unfold SubsOk
    refine ⟨?_, ?_, ?_⟩
    · simp only [List.map_append, List.map_cons, List.map_nil]
      rw [List.nodup_append]
      refine ⟨hnd, by simp, ?_⟩
      intro a ha hb
      obtain ⟨d, hd, rfl⟩ := List.mem_map.mp ha
      have hlt2 := hlt d hd
      have : d.oid = st.counter := by simpa using hb
      omega
    · rw [List.pairwise_append]
      refine ⟨hpw, by simp, ?_⟩
      intro x hx y hy
      have : y = ⟨st.counter, sub⟩ := by simpa using hy
      subst this
      exact hall x hx
    · intro d hd
      show d.oid < st.counter + 1
      rcases List.mem_append.mp hd with hd1 | hd2
      · have := hlt d hd1
        omega
      · have : d = ⟨st.counter, sub⟩ := by simpa using hd2
        subst this
        exact Nat.lt_succ_self _
  | some ex =>
    obtain ⟨l1, l2, hsplit, hpex, hl1⟩ := find?_decomp hf
    have hexmail : ex.val.email = sub.email := by simpa using hpex
    have hne1 : ∀ x ∈ l1, x.oid ≠ ex.oid := nodup_split_oid (hsplit ▸ hnd)
    have hupd : update_one st.newslettersubscriber ex.oid sub = l1 ++ ⟨ex.oid, sub⟩ :: l2 := by
      rw [hsplit]
      exact update_one_split hne1
    simp only [subscribe, hf]
    unfold SubsOk
    refine ⟨?_, ?_, ?_⟩
    · simpa only [update_one_map_oid] using hnd
    · show List.Pairwise _ (update_one st.newslettersubscriber ex.oid sub)
      rw [hupd]
      exact pairwise_email_replace hexmail (hsplit ▸ hpw)
    · intro d hd
      show d.oid < st.counter
      rw [show (update_one st.newslettersubscriber ex.oid sub) =
            l1 ++ ⟨ex.oid, sub⟩ :: l2 from hupd] at hd
      rcases List.mem_append.mp hd with hd1 | hd2
      · exact hlt d (hsplit ▸ List.mem_append_left _ hd1)
      · rcases List.mem_cons.mp hd2 with rfl | hd3
        · exact hlt ex (hsplit ▸ List.mem_append_right _ (by simp))
        · exact hlt d (hsplit ▸ List.mem_append_right _ (by simp [hd3]))

/-- After a subscribe call, the lookup by the subscribed email holds exactly
one document, carrying the submitted fields. -/
theorem subscribe_lookup_self {st : DBState} (sub : NewsletterSubscriber) (h : SubsOk st) :
    ∃ i, lookup_by_email (subscribe st sub).1 sub.email = [⟨i, sub⟩] := by
  obtain ⟨hnd, hpw, hlt⟩ := h
  cases hf : st.newslettersubscriber.find? (fun d => d.val.email == sub.email) with
  | none =>
    have hall : ∀ d ∈ st.newslettersubscriber, ¬ (d.val.email == sub.email) = true := by
      rw [List.find?_eq_none] at hf
      exact hf
    refine ⟨st.counter, ?_⟩
    simp only [subscribe, hf, create_document, lookup_by_email, get_documents]
    rw [List.filter_append]
    rw [List.filter_eq_nil_iff.mpr hall]
    simp
  | some ex =>
    obtain ⟨l1, l2, hsplit, hpex, hl1⟩ := find?_decomp hf
    have hexmail : ex.val.email = sub.email := by simpa using hpex
    have hne1 : ∀ x ∈ l1, x.oid ≠ ex.oid := nodup_split_oid (hsplit ▸ hnd)
    have hupd : update_one st.newslettersubscriber ex.oid sub = l1 ++ ⟨ex.oid, sub⟩ :: l2 := by
      rw [hsplit]
      exact update_one_split hne1
    have hl2 : ∀ y ∈ l2, ¬ (y.val.email == sub.email) = true := by
      have hpw2 := hsplit ▸ hpw
      rw [List.pairwise_append, List.pairwise_cons] at hpw2
      intro y hy
      have := hpw2.2.1.1 y hy
      rw [hexmail] at this
      simp [Ne.symm this]
    have hl1n : ∀ x ∈ l1, ¬ (x.val.email == sub.email) = true := by
      intro x hx
      simp [hl1 x hx]
    refine ⟨ex.oid, ?_⟩
    simp only [subscribe, hf, lookup_by_email, get_documents]
    rw [hupd, List.filter_append]
    rw [List.filter_eq_nil_iff.mpr hl1n]
    rw [List.filter_cons_of_pos (by simp)]
    rw [List.filter_eq_nil_iff.mpr hl2]
    simp

/-- A subscribe call with a different email leaves the lookup by the email e
unchanged. -/
theorem subscribe_lookup_other {st : DBState} {sub : NewsletterSubscriber} {e : String}
    (h : SubsOk st) (hne : sub.email ≠ e) :
    lookup_by_email (subscribe st sub).1 e = lookup_by_email st e := by
  obtain ⟨hnd, hpw, hlt⟩ := h
  cases hf : st.newslettersubscriber.find? (fun d => d.val.email == sub.email) with
  | none =>
    simp only [subscribe, hf, create_document, lookup_by_email, get_documents]
    rw [List.filter_append]
    rw [List.filter_cons_of_neg (by simp [hne])]
    simp
  | some ex =>
    obtain ⟨l1, l2, hsplit, hpex, hl1⟩ := find?_decomp hf
    have hexmail : ex.val.email = sub.email := by simpa using hpex
    have hne1 : ∀ x ∈ l1, x.oid ≠ ex.oid := nodup_split_oid (hsplit ▸ hnd)
    have hupd : update_one st.newslettersubscriber ex.oid sub = l1 ++ ⟨ex.oid, sub⟩ :: l2 := by
      rw [hsplit]
      exact update_one_split hne1
    simp only [subscribe, hf, lookup_by_email, get_documents]
    rw [hupd, hsplit, List.filter_append, List.filter_append]
    rw [List.filter_cons_of_neg (by simp [hne]), List.filter_cons_of_neg (by
      simp [hexmail, hne])]

/-- Unfolding one subscribe call of the iterated form. -/
theorem subscribeAll_cons (st : DBState) (c : NewsletterSubscriber)
    (cs : List NewsletterSubscriber) :
    subscribeAll st (c :: cs) = subscribeAll (subscribe st c).1 cs :=
  rfl

/-- Iterated subscribe calls preserve the collection well-formedness. -/
theorem subscribeAll_SubsOk :
    ∀ (cs : List NewsletterSubscriber) (st : DBState), SubsOk st →
      SubsOk (subscribeAll st cs)
  | [], _, h => h
  | c :: cs, st, h => subscribeAll_SubsOk cs (subscribe st c).1 (subscribe_SubsOk c h)

/-- Iterated subscribe calls none of which carries the email e leave the
lookup by e unchanged. -/
theorem subscribeAll_lookup_other {e : String} :
    ∀ (cs : List NewsletterSubscriber) (st : DBState), SubsOk st →
      (∀ c ∈ cs, c.email ≠ e) →
      lookup_by_email (subscribeAll st cs) e = lookup_by_email st e
  | [], _, _, _ => rfl
  | c :: cs, st, h, hn => by
      rw [subscribeAll_cons,
          subscribeAll_lookup_other cs (subscribe st c).1 (subscribe_SubsOk c h)
            (fun x hx => hn x (List.mem_cons_of_mem c hx)),
          subscribe_lookup_other h (hn c (by simp))]

/-- When no call of the sequence carries the email e, lastCallWith finds
nothing, and conversely. -/
theorem lastCallWith_eq_none {e : String} :
    ∀ {cs : List NewsletterSubscriber}, lastCallWith e cs = none →
      ∀ c ∈ cs, c.email ≠ e
  | [], _, c, hc => by simp at hc
  | c0 :: cs, h, c, hc => by
      unfold lastCallWith at h
      cases hl : lastCallWith e cs with
      | some s =>
        rw [hl] at h
        exact absurd h (by simp)
      | none =>
        rw [hl] at h
        rcases List.mem_cons.mp hc with rfl | hc2
        · intro heq
          rw [if_pos (by simp [heq])] at h
          exact absurd h (by simp)
        · exact lastCallWith_eq_none hl c hc2

/-- After any sequence of subscribe calls containing a call with email e, the
lookup by e holds exactly one document, carrying the fields of the latest
such call. -/
theorem subscribeAll_latest {e : String} :
    ∀ (cs : List NewsletterSubscriber) (st : DBState) (s : NewsletterSubscriber),
      SubsOk st → lastCallWith e cs = some s →
      ∃ i, lookup_by_email (subscribeAll st cs) e = [⟨i, s⟩]
  | [], _, _, _, h => by simp [lastCallWith] at h
  | c :: cs, st, s, hok, h => by
      rw [subscribeAll_cons]
      unfold lastCallWith at h
      cases hl : lastCallWith e cs with
      | some s2 =>
        rw [hl] at h
        cases h
        exact subscribeAll_latest cs (subscribe st c).1 s (subscribe_SubsOk c hok) hl
      | none =>
        rw [hl] at h
        by_cases hce : c.email = e
        · rw [if_pos (by simp [hce])] at h
          cases h
          rw [subscribeAll_lookup_other cs (subscribe st c).1 (subscribe_SubsOk c hok)
                (lastCallWith_eq_none hl)]
          rw [← hce]
          exact subscribe_lookup_self c hok
        · rw [if_neg (by simp [hce])] at h
          exact absurd h (by simp)

/-- C2: POST /api/newsletter is an upsert keyed on email: with no existing
subscriber for the email, exactly one new document is inserted and the
response carries updated false; with an existing subscriber, in a state
satisfying the store guarantees (at most one subscriber per email, distinct
fresh identifiers), its stored fields are overwritten in place — the sequence
of stored identifiers is unchanged, so no document is created, and the
matched identifier now carries the submitted fields — and the response
carries that same identifier and updated true; consequently, from any such
state, after any sequence of subscribe calls whose latest call with email e
is s, the lookup by e yields exactly one record, holding the fields of s. -/
theorem C2_newsletter_upsert :
    (∀ st sub,
        st.newslettersubscriber.find? (fun d => d.val.email == sub.email) = none →
        (subscribe st sub).1.newslettersubscriber =
            st.newslettersubscriber ++ [⟨st.counter, sub⟩] ∧
        (subscribe st sub).2 = ⟨oidStr st.counter, false⟩) ∧
    (∀ st sub ex, SubsOk st →
        st.newslettersubscriber.find? (fun d => d.val.email == sub.email) = some ex →
        (subscribe st sub).1.newslettersubscriber.map (fun d => d.oid) =
            st.newslettersubscriber.map (fun d => d.oid) ∧
        (⟨ex.oid, sub⟩ : Doc NewsletterSubscriber) ∈
            (subscribe st sub).1.newslettersubscriber ∧
        (subscribe st sub).1.counter = st.counter ∧
        (subscribe st sub).2 = ⟨oidStr ex.oid, true⟩) ∧
    (∀ st cs e s, SubsOk st →
        lastCallWith e cs = some s →
        (lookup_by_email (subscribeAll st cs) e).map (fun d => d.val) = [s]) := by
  refine ⟨?_, ?_, ?_⟩
  · intro st sub hf
    exact ⟨by simp [subscribe, hf, create_document],
           by simp [subscribe, hf, create_document]⟩
  · intro st sub ex hok hf
    obtain ⟨hnd, hpw, hlt⟩ := hok
    obtain ⟨l1, l2, hsplit, hpex, hl1⟩ := find?_decomp hf
    have hne1 : ∀ x ∈ l1, x.oid ≠ ex.oid := nodup_split_oid (hsplit ▸ hnd)
    have hupd : update_one st.newslettersubscriber ex.oid sub = l1 ++ ⟨ex.oid, sub⟩ :: l2 := by
      rw [hsplit]
      exact update_one_split hne1
    refine ⟨by simp [subscribe, hf, update_one_map_oid], ?_,
            by simp [subscribe, hf], by simp [subscribe, hf]⟩
    simp only [subscribe, hf]
    rw [show (update_one st.newslettersubscriber ex.oid sub) =
          l1 ++ ⟨ex.oid, sub⟩ :: l2 from hupd]
    simp
  · intro st cs e s hok hlast
    obtain ⟨i, hi⟩ := subscribeAll_latest cs st s hok hlast
    rw [hi]
    simp

/-- Witness for C2: subscribing twice from the empty store with the same
email inserts one document then updates it in place, and the final lookup by
that email holds exactly the fields of the second call. -/
theorem C2_newsletter_upsert_witness :
    ((subscribe emptyDB demoSub1).1.newslettersubscriber =
        emptyDB.newslettersubscriber ++ [⟨emptyDB.counter, demoSub1⟩] ∧
     (subscribe emptyDB demoSub1).2 = ⟨oidStr emptyDB.counter, false⟩) ∧
    ((subscribe demoSubDB demoSub2).1.newslettersubscriber.map (fun d => d.oid) =
        demoSubDB.newslettersubscriber.map (fun d => d.oid) ∧
     (⟨0, demoSub2⟩ : Doc NewsletterSubscriber) ∈
        (subscribe demoSubDB demoSub2).1.newslettersubscriber ∧
     (subscribe demoSubDB demoSub2).1.counter = demoSubDB.counter ∧
     (subscribe demoSubDB demoSub2).2 = ⟨oidStr 0, true⟩) ∧
    (lookup_by_email (subscribeAll emptyDB [demoSub1, demoSub2]) "ada@example.com").map
        (fun d => d.val) = [demoSub2] :=
  ⟨C2_newsletter_upsert.1 emptyDB demoSub1 (by decide),
   C2_newsletter_upsert.2.1 demoSubDB demoSub2 ⟨0, demoSub1⟩ (by unfold SubsOk; decide) (by decide),
   C2_newsletter_upsert.2.2 emptyDB [demoSub1, demoSub2] "ada@example.com" demoSub2
     (by unfold SubsOk; decide) (by decide)⟩

end TetoCoffee
